import Mathlib

/-!
Shallow embedding of the OSINT-Dashboard ingestion pipeline
(src/services/{rssService,gdeltService,locationService,newsService,aggregatorService}.js)
and proofs about it.

Modelling conventions:
* JS strings are modelled as Lean `String` / `List Char`; `toLowerCase` as
  `Char.toLower` mapped over the characters (the inputs the claims depend on are
  ASCII; Lean's `Char.toLower` agrees with JS on ASCII).
* JS numbers holding integers (epoch milliseconds, scores, counts) are `Int` / `Nat`.
  Coordinates in the gazetteer have exactly one decimal digit in the source and are
  stored as `Int` tenths of a degree (`lat10`, `lng10`).
* `Date` values are modelled by their epoch-millisecond value; an *Invalid Date*
  (`NaN` time value) is `none` in an `Option Int`.
* Settled promises (`Promise.allSettled`) are `Except String (List _)`:
  `.ok v` = fulfilled, `.error reason` = rejected.
-/

/-! ## Generic JS-string primitives -/

/-- The `\w` character class of a JS regex: ASCII `[A-Za-z0-9_]`. -/
def isWordChar (c : Char) : Bool :=
  (('a' ≤ c && c ≤ 'z') || ('A' ≤ c && c ≤ 'Z') || ('0' ≤ c && c ≤ '9') || c == '_')

/-- Whether the character at position `p` of `t` is a word character
(out-of-range counts as non-word, like the virtual characters beyond a JS string). -/
def wordAt (t : List Char) (p : Nat) : Bool :=
  match t[p]? with
  | some c => isWordChar c
  | none => false

/-- A JS regex `\b` assertion holds at position `p`: exactly one of the characters
adjacent to the position is a word character. -/
def boundaryAt (t : List Char) (p : Nat) : Bool :=
  (if p = 0 then false else wordAt t (p - 1)) != wordAt t p

/-- The literal `key` occurs in `t` starting at `i` with `\b` on both sides,
i.e. a match of the JS regex `/\bkey\b/` anchored at `i`. -/
def wholeWordAt (t key : List Char) (i : Nat) : Bool :=
  key.isPrefixOf (t.drop i) && boundaryAt t i && boundaryAt t (i + key.length)

/-- Test of the JS regex `/\bkey\b/` against `t` (some anchor position matches).
Callers pass already-lowercased text and lowercase keys, which makes the
`i` regex flag of the source a no-op. -/
def regexWordTest (t key : List Char) : Bool :=
  (List.range (t.length + 1)).any (fun i => wholeWordAt t key i)

/-- JS `String.prototype.includes`: `needle` occurs contiguously in `hay`. -/
def containsSub (hay needle : List Char) : Bool :=
  (List.range (hay.length + 1)).any (fun i => needle.isPrefixOf (hay.drop i))

/-- JS `text.toLowerCase()` on ASCII text, producing the character list. -/
def jsLower (s : String) : List Char :=
  s.data.map Char.toLower

/-- JS `s.substring(i, j)` for `i ≤ j` (both clamped to the string length). -/
def jsSubstring (s : String) (i j : Nat) : String :=
  ⟨(s.data.drop i).take (j - i)⟩

/-! ## rssService.js — severity classifier

Source: `SEVERITY_KEYWORDS` and `calculateSeverity` (src/services/rssService.js).
-/

structure SeverityKeywords where
  critical : List String
  high : List String
  medium : List String

def SEVERITY_KEYWORDS : SeverityKeywords :=
  { critical := [
      "killed", "dead", "deaths", "died", "explosion", "attack", "attacks",
      "war", "earthquake", "tsunami", "massacre", "terrorist", "terrorism",
      "bomb", "bombing", "casualties", "fatalities", "murder", "assassin"]
    high := [
      "strike", "strikes", "protest", "protests", "arrested", "emergency",
      "crash", "crashed", "fire", "shooting", "violence", "violent",
      "clashes", "injured", "wounded", "hostage", "siege", "riot"]
    medium := [
      "election", "summit", "sanctions", "investigation", "trial", "accused",
      "warning", "threat", "crisis", "tensions", "conflict", "dispute",
      "controversy", "scandal", "fraud", "corruption"] }

/-- Model of `calculateSeverity(title, description, isBreaking, isRecent)`:
keyword-tier scoring over `(title + ' ' + description).toLowerCase()` followed by
the breaking/recent boosts.  The `for … break` loops of the source are `List.any`
(both compute "some keyword of the tier is a substring of the text"). -/
def calculateSeverity (title description : String) (breaking recent : Bool) : Nat :=
  let text := jsLower (title ++ " " ++ description)
  let hasCritical := SEVERITY_KEYWORDS.critical.any (fun kw => containsSub text kw.data)
  let hasHigh := SEVERITY_KEYWORDS.high.any (fun kw => containsSub text kw.data)
  let hasMedium := SEVERITY_KEYWORDS.medium.any (fun kw => containsSub text kw.data)
  let score0 := 2
  let score1 := if hasCritical then max score0 5 else score0
  let score2 := if score1 < 5 then (if hasHigh then max score1 4 else score1) else score1
  let score3 := if score2 < 4 then (if hasMedium then max score2 3 else score2) else score2
  let score4 := if breaking && Nat.blt score3 5 then min (score3 + 1) 5 else score3
  let score5 := if recent && Nat.blt score4 4 then min (score4 + 1) 4 else score4
  score5

/-! ## gdeltService.js — compact timestamp parser

Source: `parseGDELTDate` (src/services/gdeltService.js).  The function builds the
string `` `${y}-${mo}-${d}T${h}:${mi}:${s}Z` `` from fixed `substring` slices and
hands it to `new Date(...)`.  `new Date` on a string never throws, so the
`try/catch` of the source cannot take its `catch` branch; an unparseable string
yields an *Invalid Date* (modelled as `none`), not the current time.
-/

def digitVal (c : Char) : Option Nat :=
  if '0' ≤ c && c ≤ '9' then some (c.toNat - 48) else none

def digits2 (a b : Char) : Option Nat :=
  match digitVal a, digitVal b with
  | some x, some y => some (x * 10 + y)
  | _, _ => none

def digits4 (a b c d : Char) : Option Nat :=
  match digits2 a b, digits2 c d with
  | some x, some y => some (x * 100 + y)
  | _, _ => none

def isLeapYear (y : Nat) : Bool :=
  (y % 4 = 0 && y % 100 ≠ 0) || y % 400 = 0

def daysInMonth (y m : Nat) : Nat :=
  if m = 2 then (if isLeapYear y then 29 else 28)
  else if m = 4 || m = 6 || m = 9 || m = 11 then 30
  else 31

/-- Days from 1970-01-01 to the civil date `y-m-d` (standard civil-from-days
inverse; all divisions act on non-negative values for the 4-digit years produced
by the parser). -/
def daysFromCivil (y m d : Int) : Int :=
  let y := y - (if m ≤ 2 then 1 else 0)
  let era := (if 0 ≤ y then y else y - 399) / 400
  let yoe := y - era * 400
  let doy := (153 * (m + (if 2 < m then -3 else 9)) + 2) / 5 + d - 1
  let doe := yoe * 365 + yoe / 4 - yoe / 100 + doy
  era * 146097 + doe - 719468

def epochMs (y m d h mi s : Nat) : Int :=
  daysFromCivil y m d * 86400000 + h * 3600000 + mi * 60000 + s * 1000

/-- Model of `new Date(str)` for strings of the template shape `YYYY-MM-DDTHH:MM:SSZ`
(the only shape `parseGDELTDate` ever builds): a valid instant when every field
is two/four digits and in range, otherwise an Invalid Date (`none`). -/
def jsDateFromISO (s : String) : Option Int :=
  match s.data with
  | [y1, y2, y3, y4, '-', mo1, mo2, '-', d1, d2, 'T',
     h1, h2, ':', mi1, mi2, ':', s1, s2, 'Z'] =>
    match digits4 y1 y2 y3 y4, digits2 mo1 mo2, digits2 d1 d2,
          digits2 h1 h2, digits2 mi1 mi2, digits2 s1 s2 with
    | some y, some mo, some d, some h, some mi, some sec =>
      if 1 ≤ mo && mo ≤ 12 && 1 ≤ d && d ≤ daysInMonth y mo
          && h ≤ 23 && mi ≤ 59 && sec ≤ 59
      then some (epochMs y mo d h mi sec)
      else none
    | _, _, _, _, _, _ => none
  | _ => none

/-- Model of `parseGDELTDate(dateStr)`, with the fetch-time `new Date()` value passed in as
`now`.  `none` for `dateStr` is JS `undefined`/`null`; `!dateStr` is also true for
the empty string. -/
def parseGDELTDate (dateStr : Option String) (now : Int) : Option Int :=
  match dateStr with
  | none => some now
  | some s =>
    if s = "" then some now
    else
      let year := jsSubstring s 0 4
      let month := jsSubstring s 4 6
      let day := jsSubstring s 6 8
      let hour := jsSubstring s 8 10
      let min := jsSubstring s 10 12
      let sec := jsSubstring s 12 14
      jsDateFromISO (year ++ "-" ++ month ++ "-" ++ day ++ "T"
        ++ hour ++ ":" ++ min ++ ":" ++ sec ++ "Z")

/-! ## locationService.js — gazetteer and location extraction

Source: `COUNTRIES`, `MAJOR_CITIES`, `REGIONS`, `searchIndex` and `extractLocation`
(src/services/locationService.js).  Coordinates have exactly one decimal digit in
the source and are stored here as tenths of a degree.  A single entry structure
covers all three tables: `code`/`aliases` are populated for countries, `country`
for cities, and `kind` holds the `type` tag the index-construction spread gives
the entry (`'country'`/`'city'` for countries and cities; for regions the
region's own `type: 'regional'` field wins over the `type: 'region'` written
before the spread, so region entries carry `"regional"`).
-/

structure GazEntry where
  name : String
  lat10 : Int
  lng10 : Int
  code : Option String
  country : Option String
  kind : String
  aliases : List String
deriving DecidableEq

set_option maxHeartbeats 2000000 in
def COUNTRIES : List (String × GazEntry) := [
  ("united states", { name := "United States", lat10 := 398, lng10 := -985, code := some "US", country := none, kind := "country", aliases := ["us", "usa", "america", "american"] }),
  ("canada", { name := "Canada", lat10 := 561, lng10 := -1063, code := some "CA", country := none, kind := "country", aliases := [] }),
  ("mexico", { name := "Mexico", lat10 := 236, lng10 := -1025, code := some "MX", country := none, kind := "country", aliases := ["mexican"] }),
  ("united kingdom", { name := "United Kingdom", lat10 := 554, lng10 := -34, code := some "GB", country := none, kind := "country", aliases := ["uk", "britain", "british", "england", "english", "scotland", "wales"] }),
  ("france", { name := "France", lat10 := 462, lng10 := 22, code := some "FR", country := none, kind := "country", aliases := ["french", "paris"] }),
  ("germany", { name := "Germany", lat10 := 512, lng10 := 105, code := some "DE", country := none, kind := "country", aliases := ["german", "berlin"] }),
  ("italy", { name := "Italy", lat10 := 419, lng10 := 126, code := some "IT", country := none, kind := "country", aliases := ["italian", "rome"] }),
  ("spain", { name := "Spain", lat10 := 405, lng10 := -37, code := some "ES", country := none, kind := "country", aliases := ["spanish", "madrid"] }),
  ("ukraine", { name := "Ukraine", lat10 := 484, lng10 := 312, code := some "UA", country := none, kind := "country", aliases := ["ukrainian", "kyiv", "kiev"] }),
  ("russia", { name := "Russia", lat10 := 615, lng10 := 1053, code := some "RU", country := none, kind := "country", aliases := ["russian", "moscow", "kremlin", "putin"] }),
  ("poland", { name := "Poland", lat10 := 519, lng10 := 191, code := some "PL", country := none, kind := "country", aliases := ["polish", "warsaw"] }),
  ("netherlands", { name := "Netherlands", lat10 := 521, lng10 := 53, code := some "NL", country := none, kind := "country", aliases := ["dutch", "amsterdam", "holland"] }),
  ("belgium", { name := "Belgium", lat10 := 505, lng10 := 45, code := some "BE", country := none, kind := "country", aliases := ["belgian", "brussels"] }),
  ("greece", { name := "Greece", lat10 := 391, lng10 := 218, code := some "GR", country := none, kind := "country", aliases := ["greek", "athens"] }),
  ("portugal", { name := "Portugal", lat10 := 394, lng10 := -82, code := some "PT", country := none, kind := "country", aliases := ["portuguese", "lisbon"] }),
  ("sweden", { name := "Sweden", lat10 := 601, lng10 := 186, code := some "SE", country := none, kind := "country", aliases := ["swedish", "stockholm"] }),
  ("norway", { name := "Norway", lat10 := 605, lng10 := 85, code := some "NO", country := none, kind := "country", aliases := ["norwegian", "oslo"] }),
  ("finland", { name := "Finland", lat10 := 619, lng10 := 257, code := some "FI", country := none, kind := "country", aliases := ["finnish", "helsinki"] }),
  ("denmark", { name := "Denmark", lat10 := 563, lng10 := 95, code := some "DK", country := none, kind := "country", aliases := ["danish", "copenhagen"] }),
  ("ireland", { name := "Ireland", lat10 := 531, lng10 := -80, code := some "IE", country := none, kind := "country", aliases := ["irish", "dublin"] }),
  ("switzerland", { name := "Switzerland", lat10 := 468, lng10 := 82, code := some "CH", country := none, kind := "country", aliases := ["swiss", "geneva", "zurich"] }),
  ("austria", { name := "Austria", lat10 := 475, lng10 := 146, code := some "AT", country := none, kind := "country", aliases := ["austrian", "vienna"] }),
  ("czech republic", { name := "Czech Republic", lat10 := 498, lng10 := 155, code := some "CZ", country := none, kind := "country", aliases := ["czech", "prague", "czechia"] }),
  ("hungary", { name := "Hungary", lat10 := 472, lng10 := 195, code := some "HU", country := none, kind := "country", aliases := ["hungarian", "budapest"] }),
  ("romania", { name := "Romania", lat10 := 459, lng10 := 250, code := some "RO", country := none, kind := "country", aliases := ["romanian", "bucharest"] }),
  ("bulgaria", { name := "Bulgaria", lat10 := 427, lng10 := 255, code := some "BG", country := none, kind := "country", aliases := ["bulgarian", "sofia"] }),
  ("israel", { name := "Israel", lat10 := 310, lng10 := 349, code := some "IL", country := none, kind := "country", aliases := ["israeli", "jerusalem", "tel aviv", "netanyahu", "gaza"] }),
  ("palestine", { name := "Palestine", lat10 := 319, lng10 := 352, code := some "PS", country := none, kind := "country", aliases := ["palestinian", "west bank", "hamas"] }),
  ("iran", { name := "Iran", lat10 := 324, lng10 := 537, code := some "IR", country := none, kind := "country", aliases := ["iranian", "tehran", "persian"] }),
  ("iraq", { name := "Iraq", lat10 := 332, lng10 := 437, code := some "IQ", country := none, kind := "country", aliases := ["iraqi", "baghdad"] }),
  ("syria", { name := "Syria", lat10 := 348, lng10 := 390, code := some "SY", country := none, kind := "country", aliases := ["syrian", "damascus", "assad"] }),
  ("lebanon", { name := "Lebanon", lat10 := 339, lng10 := 359, code := some "LB", country := none, kind := "country", aliases := ["lebanese", "beirut", "hezbollah"] }),
  ("jordan", { name := "Jordan", lat10 := 306, lng10 := 362, code := some "JO", country := none, kind := "country", aliases := ["jordanian", "amman"] }),
  ("saudi arabia", { name := "Saudi Arabia", lat10 := 239, lng10 := 451, code := some "SA", country := none, kind := "country", aliases := ["saudi", "riyadh"] }),
  ("uae", { name := "UAE", lat10 := 234, lng10 := 538, code := some "AE", country := none, kind := "country", aliases := ["emirates", "dubai", "abu dhabi"] }),
  ("qatar", { name := "Qatar", lat10 := 254, lng10 := 512, code := some "QA", country := none, kind := "country", aliases := ["doha"] }),
  ("yemen", { name := "Yemen", lat10 := 156, lng10 := 485, code := some "YE", country := none, kind := "country", aliases := ["yemeni", "houthi", "sanaa"] }),
  ("turkey", { name := "Turkey", lat10 := 389, lng10 := 352, code := some "TR", country := none, kind := "country", aliases := ["turkish", "ankara", "istanbul", "erdogan"] }),
  ("china", { name := "China", lat10 := 359, lng10 := 1042, code := some "CN", country := none, kind := "country", aliases := ["chinese", "beijing", "shanghai", "hong kong", "xi jinping"] }),
  ("japan", { name := "Japan", lat10 := 362, lng10 := 1383, code := some "JP", country := none, kind := "country", aliases := ["japanese", "tokyo"] }),
  ("south korea", { name := "South Korea", lat10 := 359, lng10 := 1278, code := some "KR", country := none, kind := "country", aliases := ["korean", "seoul"] }),
  ("north korea", { name := "North Korea", lat10 := 403, lng10 := 1275, code := some "KP", country := none, kind := "country", aliases := ["pyongyang", "kim jong"] }),
  ("india", { name := "India", lat10 := 206, lng10 := 790, code := some "IN", country := none, kind := "country", aliases := ["indian", "delhi", "mumbai", "modi"] }),
  ("pakistan", { name := "Pakistan", lat10 := 304, lng10 := 693, code := some "PK", country := none, kind := "country", aliases := ["pakistani", "islamabad", "karachi"] }),
  ("afghanistan", { name := "Afghanistan", lat10 := 339, lng10 := 677, code := some "AF", country := none, kind := "country", aliases := ["afghan", "kabul", "taliban"] }),
  ("indonesia", { name := "Indonesia", lat10 := -8, lng10 := 1139, code := some "ID", country := none, kind := "country", aliases := ["indonesian", "jakarta"] }),
  ("vietnam", { name := "Vietnam", lat10 := 141, lng10 := 1083, code := some "VN", country := none, kind := "country", aliases := ["vietnamese", "hanoi"] }),
  ("thailand", { name := "Thailand", lat10 := 159, lng10 := 1009, code := some "TH", country := none, kind := "country", aliases := ["thai", "bangkok"] }),
  ("philippines", { name := "Philippines", lat10 := 129, lng10 := 1218, code := some "PH", country := none, kind := "country", aliases := ["filipino", "manila"] }),
  ("malaysia", { name := "Malaysia", lat10 := 42, lng10 := 1019, code := some "MY", country := none, kind := "country", aliases := ["malaysian", "kuala lumpur"] }),
  ("singapore", { name := "Singapore", lat10 := 14, lng10 := 1038, code := some "SG", country := none, kind := "country", aliases := [] }),
  ("myanmar", { name := "Myanmar", lat10 := 219, lng10 := 959, code := some "MM", country := none, kind := "country", aliases := ["burma", "burmese", "yangon"] }),
  ("bangladesh", { name := "Bangladesh", lat10 := 237, lng10 := 904, code := some "BD", country := none, kind := "country", aliases := ["bangladeshi", "dhaka"] }),
  ("taiwan", { name := "Taiwan", lat10 := 237, lng10 := 1210, code := some "TW", country := none, kind := "country", aliases := ["taiwanese", "taipei"] }),
  ("egypt", { name := "Egypt", lat10 := 268, lng10 := 308, code := some "EG", country := none, kind := "country", aliases := ["egyptian", "cairo"] }),
  ("south africa", { name := "South Africa", lat10 := -306, lng10 := 229, code := some "ZA", country := none, kind := "country", aliases := ["johannesburg", "cape town"] }),
  ("nigeria", { name := "Nigeria", lat10 := 91, lng10 := 87, code := some "NG", country := none, kind := "country", aliases := ["nigerian", "lagos"] }),
  ("kenya", { name := "Kenya", lat10 := 0, lng10 := 379, code := some "KE", country := none, kind := "country", aliases := ["kenyan", "nairobi"] }),
  ("ethiopia", { name := "Ethiopia", lat10 := 91, lng10 := 405, code := some "ET", country := none, kind := "country", aliases := ["ethiopian", "addis ababa"] }),
  ("sudan", { name := "Sudan", lat10 := 129, lng10 := 302, code := some "SD", country := none, kind := "country", aliases := ["sudanese", "khartoum"] }),
  ("morocco", { name := "Morocco", lat10 := 318, lng10 := -71, code := some "MA", country := none, kind := "country", aliases := ["moroccan", "rabat"] }),
  ("algeria", { name := "Algeria", lat10 := 280, lng10 := 17, code := some "DZ", country := none, kind := "country", aliases := ["algerian", "algiers"] }),
  ("libya", { name := "Libya", lat10 := 263, lng10 := 172, code := some "LY", country := none, kind := "country", aliases := ["libyan", "tripoli"] }),
  ("tunisia", { name := "Tunisia", lat10 := 339, lng10 := 95, code := some "TN", country := none, kind := "country", aliases := ["tunisian", "tunis"] }),
  ("ghana", { name := "Ghana", lat10 := 79, lng10 := -10, code := some "GH", country := none, kind := "country", aliases := ["ghanaian", "accra"] }),
  ("congo", { name := "Congo", lat10 := -40, lng10 := 218, code := some "CD", country := none, kind := "country", aliases := ["congolese", "kinshasa", "drc"] }),
  ("somalia", { name := "Somalia", lat10 := 52, lng10 := 462, code := some "SO", country := none, kind := "country", aliases := ["somali", "mogadishu"] }),
  ("australia", { name := "Australia", lat10 := -253, lng10 := 1338, code := some "AU", country := none, kind := "country", aliases := ["australian", "sydney", "melbourne", "canberra"] }),
  ("new zealand", { name := "New Zealand", lat10 := -409, lng10 := 1749, code := some "NZ", country := none, kind := "country", aliases := ["kiwi", "auckland", "wellington"] }),
  ("brazil", { name := "Brazil", lat10 := -142, lng10 := -519, code := some "BR", country := none, kind := "country", aliases := ["brazilian", "brasilia", "sao paulo", "rio"] }),
  ("argentina", { name := "Argentina", lat10 := -384, lng10 := -636, code := some "AR", country := none, kind := "country", aliases := ["argentine", "buenos aires"] }),
  ("chile", { name := "Chile", lat10 := -357, lng10 := -715, code := some "CL", country := none, kind := "country", aliases := ["chilean", "santiago"] }),
  ("colombia", { name := "Colombia", lat10 := 46, lng10 := -743, code := some "CO", country := none, kind := "country", aliases := ["colombian", "bogota"] }),
  ("peru", { name := "Peru", lat10 := -92, lng10 := -750, code := some "PE", country := none, kind := "country", aliases := ["peruvian", "lima"] }),
  ("venezuela", { name := "Venezuela", lat10 := 64, lng10 := -666, code := some "VE", country := none, kind := "country", aliases := ["venezuelan", "caracas", "maduro"] }),
  ("ecuador", { name := "Ecuador", lat10 := -18, lng10 := -782, code := some "EC", country := none, kind := "country", aliases := ["ecuadorian", "quito"] }),
  ("cuba", { name := "Cuba", lat10 := 215, lng10 := -778, code := some "CU", country := none, kind := "country", aliases := ["cuban", "havana"] }),
  ("haiti", { name := "Haiti", lat10 := 189, lng10 := -723, code := some "HT", country := none, kind := "country", aliases := ["haitian", "port-au-prince"] }),
  ("jamaica", { name := "Jamaica", lat10 := 181, lng10 := -773, code := some "JM", country := none, kind := "country", aliases := ["jamaican", "kingston"] }),
  ("panama", { name := "Panama", lat10 := 85, lng10 := -808, code := some "PA", country := none, kind := "country", aliases := ["panamanian"] }),
  ("guatemala", { name := "Guatemala", lat10 := 158, lng10 := -902, code := some "GT", country := none, kind := "country", aliases := ["guatemalan"] }),
  ("honduras", { name := "Honduras", lat10 := 152, lng10 := -862, code := some "HN", country := none, kind := "country", aliases := ["honduran"] }),
  ("el salvador", { name := "El Salvador", lat10 := 138, lng10 := -889, code := some "SV", country := none, kind := "country", aliases := ["salvadoran"] }),
  ("nicaragua", { name := "Nicaragua", lat10 := 129, lng10 := -852, code := some "NI", country := none, kind := "country", aliases := ["nicaraguan"] }),
  ("costa rica", { name := "Costa Rica", lat10 := 97, lng10 := -838, code := some "CR", country := none, kind := "country", aliases := ["costa rican"] })
]

set_option maxHeartbeats 2000000 in
def MAJOR_CITIES : List (String × GazEntry) := [
  ("new york", { name := "New York", lat10 := 407, lng10 := -740, code := none, country := some "US", kind := "city", aliases := [] }),
  ("los angeles", { name := "Los Angeles", lat10 := 341, lng10 := -1182, code := none, country := some "US", kind := "city", aliases := [] }),
  ("chicago", { name := "Chicago", lat10 := 419, lng10 := -876, code := none, country := some "US", kind := "city", aliases := [] }),
  ("houston", { name := "Houston", lat10 := 298, lng10 := -954, code := none, country := some "US", kind := "city", aliases := [] }),
  ("washington", { name := "Washington D.C.", lat10 := 389, lng10 := -770, code := none, country := some "US", kind := "city", aliases := [] }),
  ("san francisco", { name := "San Francisco", lat10 := 378, lng10 := -1224, code := none, country := some "US", kind := "city", aliases := [] }),
  ("miami", { name := "Miami", lat10 := 258, lng10 := -802, code := none, country := some "US", kind := "city", aliases := [] }),
  ("boston", { name := "Boston", lat10 := 424, lng10 := -711, code := none, country := some "US", kind := "city", aliases := [] }),
  ("seattle", { name := "Seattle", lat10 := 476, lng10 := -1223, code := none, country := some "US", kind := "city", aliases := [] }),
  ("denver", { name := "Denver", lat10 := 397, lng10 := -1050, code := none, country := some "US", kind := "city", aliases := [] }),
  ("atlanta", { name := "Atlanta", lat10 := 337, lng10 := -844, code := none, country := some "US", kind := "city", aliases := [] }),
  ("dallas", { name := "Dallas", lat10 := 328, lng10 := -968, code := none, country := some "US", kind := "city", aliases := [] }),
  ("phoenix", { name := "Phoenix", lat10 := 334, lng10 := -1121, code := none, country := some "US", kind := "city", aliases := [] }),
  ("las vegas", { name := "Las Vegas", lat10 := 362, lng10 := -1151, code := none, country := some "US", kind := "city", aliases := [] }),
  ("detroit", { name := "Detroit", lat10 := 423, lng10 := -830, code := none, country := some "US", kind := "city", aliases := [] }),
  ("philadelphia", { name := "Philadelphia", lat10 := 400, lng10 := -752, code := none, country := some "US", kind := "city", aliases := [] }),
  ("london", { name := "London", lat10 := 515, lng10 := -1, code := none, country := some "GB", kind := "city", aliases := [] }),
  ("manchester", { name := "Manchester", lat10 := 535, lng10 := -22, code := none, country := some "GB", kind := "city", aliases := [] }),
  ("birmingham", { name := "Birmingham", lat10 := 525, lng10 := -19, code := none, country := some "GB", kind := "city", aliases := [] }),
  ("paris", { name := "Paris", lat10 := 489, lng10 := 24, code := none, country := some "FR", kind := "city", aliases := [] }),
  ("berlin", { name := "Berlin", lat10 := 525, lng10 := 134, code := none, country := some "DE", kind := "city", aliases := [] }),
  ("munich", { name := "Munich", lat10 := 481, lng10 := 116, code := none, country := some "DE", kind := "city", aliases := [] }),
  ("rome", { name := "Rome", lat10 := 419, lng10 := 125, code := none, country := some "IT", kind := "city", aliases := [] }),
  ("milan", { name := "Milan", lat10 := 455, lng10 := 92, code := none, country := some "IT", kind := "city", aliases := [] }),
  ("madrid", { name := "Madrid", lat10 := 404, lng10 := -37, code := none, country := some "ES", kind := "city", aliases := [] }),
  ("barcelona", { name := "Barcelona", lat10 := 414, lng10 := 22, code := none, country := some "ES", kind := "city", aliases := [] }),
  ("amsterdam", { name := "Amsterdam", lat10 := 524, lng10 := 49, code := none, country := some "NL", kind := "city", aliases := [] }),
  ("brussels", { name := "Brussels", lat10 := 509, lng10 := 44, code := none, country := some "BE", kind := "city", aliases := [] }),
  ("vienna", { name := "Vienna", lat10 := 482, lng10 := 164, code := none, country := some "AT", kind := "city", aliases := [] }),
  ("prague", { name := "Prague", lat10 := 501, lng10 := 144, code := none, country := some "CZ", kind := "city", aliases := [] }),
  ("warsaw", { name := "Warsaw", lat10 := 522, lng10 := 210, code := none, country := some "PL", kind := "city", aliases := [] }),
  ("budapest", { name := "Budapest", lat10 := 475, lng10 := 190, code := none, country := some "HU", kind := "city", aliases := [] }),
  ("moscow", { name := "Moscow", lat10 := 558, lng10 := 376, code := none, country := some "RU", kind := "city", aliases := [] }),
  ("st petersburg", { name := "St Petersburg", lat10 := 599, lng10 := 303, code := none, country := some "RU", kind := "city", aliases := [] }),
  ("kyiv", { name := "Kyiv", lat10 := 505, lng10 := 305, code := none, country := some "UA", kind := "city", aliases := [] }),
  ("kharkiv", { name := "Kharkiv", lat10 := 500, lng10 := 363, code := none, country := some "UA", kind := "city", aliases := [] }),
  ("odesa", { name := "Odesa", lat10 := 465, lng10 := 307, code := none, country := some "UA", kind := "city", aliases := [] }),
  ("beijing", { name := "Beijing", lat10 := 399, lng10 := 1164, code := none, country := some "CN", kind := "city", aliases := [] }),
  ("shanghai", { name := "Shanghai", lat10 := 312, lng10 := 1215, code := none, country := some "CN", kind := "city", aliases := [] }),
  ("hong kong", { name := "Hong Kong", lat10 := 223, lng10 := 1142, code := none, country := some "CN", kind := "city", aliases := [] }),
  ("tokyo", { name := "Tokyo", lat10 := 357, lng10 := 1397, code := none, country := some "JP", kind := "city", aliases := [] }),
  ("osaka", { name := "Osaka", lat10 := 347, lng10 := 1355, code := none, country := some "JP", kind := "city", aliases := [] }),
  ("seoul", { name := "Seoul", lat10 := 376, lng10 := 1270, code := none, country := some "KR", kind := "city", aliases := [] }),
  ("taipei", { name := "Taipei", lat10 := 250, lng10 := 1215, code := none, country := some "TW", kind := "city", aliases := [] }),
  ("delhi", { name := "Delhi", lat10 := 287, lng10 := 771, code := none, country := some "IN", kind := "city", aliases := [] }),
  ("mumbai", { name := "Mumbai", lat10 := 191, lng10 := 729, code := none, country := some "IN", kind := "city", aliases := [] }),
  ("bangkok", { name := "Bangkok", lat10 := 138, lng10 := 1005, code := none, country := some "TH", kind := "city", aliases := [] }),
  ("singapore", { name := "Singapore", lat10 := 14, lng10 := 1038, code := none, country := some "SG", kind := "city", aliases := [] }),
  ("jakarta", { name := "Jakarta", lat10 := -62, lng10 := 1068, code := none, country := some "ID", kind := "city", aliases := [] }),
  ("manila", { name := "Manila", lat10 := 146, lng10 := 1210, code := none, country := some "PH", kind := "city", aliases := [] }),
  ("hanoi", { name := "Hanoi", lat10 := 210, lng10 := 1059, code := none, country := some "VN", kind := "city", aliases := [] }),
  ("kabul", { name := "Kabul", lat10 := 345, lng10 := 692, code := none, country := some "AF", kind := "city", aliases := [] }),
  ("tehran", { name := "Tehran", lat10 := 357, lng10 := 514, code := none, country := some "IR", kind := "city", aliases := [] }),
  ("baghdad", { name := "Baghdad", lat10 := 333, lng10 := 444, code := none, country := some "IQ", kind := "city", aliases := [] }),
  ("damascus", { name := "Damascus", lat10 := 335, lng10 := 363, code := none, country := some "SY", kind := "city", aliases := [] }),
  ("istanbul", { name := "Istanbul", lat10 := 410, lng10 := 290, code := none, country := some "TR", kind := "city", aliases := [] }),
  ("ankara", { name := "Ankara", lat10 := 399, lng10 := 329, code := none, country := some "TR", kind := "city", aliases := [] }),
  ("dubai", { name := "Dubai", lat10 := 252, lng10 := 553, code := none, country := some "AE", kind := "city", aliases := [] }),
  ("riyadh", { name := "Riyadh", lat10 := 247, lng10 := 467, code := none, country := some "SA", kind := "city", aliases := [] }),
  ("tel aviv", { name := "Tel Aviv", lat10 := 321, lng10 := 348, code := none, country := some "IL", kind := "city", aliases := [] }),
  ("jerusalem", { name := "Jerusalem", lat10 := 318, lng10 := 352, code := none, country := some "IL", kind := "city", aliases := [] }),
  ("beirut", { name := "Beirut", lat10 := 339, lng10 := 355, code := none, country := some "LB", kind := "city", aliases := [] }),
  ("cairo", { name := "Cairo", lat10 := 300, lng10 := 312, code := none, country := some "EG", kind := "city", aliases := [] }),
  ("johannesburg", { name := "Johannesburg", lat10 := -262, lng10 := 280, code := none, country := some "ZA", kind := "city", aliases := [] }),
  ("cape town", { name := "Cape Town", lat10 := -339, lng10 := 184, code := none, country := some "ZA", kind := "city", aliases := [] }),
  ("lagos", { name := "Lagos", lat10 := 65, lng10 := 34, code := none, country := some "NG", kind := "city", aliases := [] }),
  ("nairobi", { name := "Nairobi", lat10 := -13, lng10 := 368, code := none, country := some "KE", kind := "city", aliases := [] }),
  ("addis ababa", { name := "Addis Ababa", lat10 := 90, lng10 := 387, code := none, country := some "ET", kind := "city", aliases := [] }),
  ("khartoum", { name := "Khartoum", lat10 := 156, lng10 := 325, code := none, country := some "SD", kind := "city", aliases := [] }),
  ("sydney", { name := "Sydney", lat10 := -339, lng10 := 1512, code := none, country := some "AU", kind := "city", aliases := [] }),
  ("melbourne", { name := "Melbourne", lat10 := -378, lng10 := 1450, code := none, country := some "AU", kind := "city", aliases := [] }),
  ("brisbane", { name := "Brisbane", lat10 := -275, lng10 := 1530, code := none, country := some "AU", kind := "city", aliases := [] }),
  ("perth", { name := "Perth", lat10 := -319, lng10 := 1159, code := none, country := some "AU", kind := "city", aliases := [] }),
  ("auckland", { name := "Auckland", lat10 := -368, lng10 := 1748, code := none, country := some "NZ", kind := "city", aliases := [] }),
  ("sao paulo", { name := "São Paulo", lat10 := -236, lng10 := -466, code := none, country := some "BR", kind := "city", aliases := [] }),
  ("rio de janeiro", { name := "Rio de Janeiro", lat10 := -229, lng10 := -432, code := none, country := some "BR", kind := "city", aliases := [] }),
  ("buenos aires", { name := "Buenos Aires", lat10 := -346, lng10 := -584, code := none, country := some "AR", kind := "city", aliases := [] }),
  ("santiago", { name := "Santiago", lat10 := -334, lng10 := -707, code := none, country := some "CL", kind := "city", aliases := [] }),
  ("bogota", { name := "Bogotá", lat10 := 47, lng10 := -741, code := none, country := some "CO", kind := "city", aliases := [] }),
  ("lima", { name := "Lima", lat10 := -120, lng10 := -770, code := none, country := some "PE", kind := "city", aliases := [] }),
  ("caracas", { name := "Caracas", lat10 := 105, lng10 := -669, code := none, country := some "VE", kind := "city", aliases := [] })
]

set_option maxHeartbeats 2000000 in
def REGIONS : List (String × GazEntry) := [
  ("middle east", { name := "Middle East", lat10 := 290, lng10 := 410, code := none, country := none, kind := "regional", aliases := [] }),
  ("africa", { name := "Africa", lat10 := 88, lng10 := 345, code := none, country := none, kind := "regional", aliases := [] }),
  ("europe", { name := "Europe", lat10 := 545, lng10 := 153, code := none, country := none, kind := "regional", aliases := [] }),
  ("asia", { name := "Asia", lat10 := 340, lng10 := 1006, code := none, country := none, kind := "regional", aliases := [] }),
  ("latin america", { name := "Latin America", lat10 := -88, lng10 := -555, code := none, country := none, kind := "regional", aliases := [] }),
  ("south america", { name := "South America", lat10 := -88, lng10 := -555, code := none, country := none, kind := "regional", aliases := [] }),
  ("central america", { name := "Central America", lat10 := 128, lng10 := -850, code := none, country := none, kind := "regional", aliases := [] }),
  ("caribbean", { name := "Caribbean", lat10 := 215, lng10 := -780, code := none, country := none, kind := "regional", aliases := [] }),
  ("pacific", { name := "Pacific", lat10 := -88, lng10 := -1245, code := none, country := none, kind := "regional", aliases := [] }),
  ("arctic", { name := "Arctic", lat10 := 717, lng10 := -426, code := none, country := none, kind := "regional", aliases := [] }),
  ("antarctic", { name := "Antarctic", lat10 := -829, lng10 := 1350, code := none, country := none, kind := "regional", aliases := [] }),
  ("southeast asia", { name := "Southeast Asia", lat10 := 129, lng10 := 1079, code := none, country := none, kind := "regional", aliases := [] }),
  ("east asia", { name := "East Asia", lat10 := 359, lng10 := 1042, code := none, country := none, kind := "regional", aliases := [] }),
  ("south asia", { name := "South Asia", lat10 := 206, lng10 := 790, code := none, country := none, kind := "regional", aliases := [] }),
  ("central asia", { name := "Central Asia", lat10 := 450, lng10 := 630, code := none, country := none, kind := "regional", aliases := [] }),
  ("northern africa", { name := "Northern Africa", lat10 := 268, lng10 := 180, code := none, country := none, kind := "regional", aliases := [] }),
  ("sub-saharan", { name := "Sub-Saharan Africa", lat10 := -20, lng10 := 230, code := none, country := none, kind := "regional", aliases := [] }),
  ("western europe", { name := "Western Europe", lat10 := 480, lng10 := 40, code := none, country := none, kind := "regional", aliases := [] }),
  ("eastern europe", { name := "Eastern Europe", lat10 := 500, lng10 := 300, code := none, country := none, kind := "regional", aliases := [] }),
  ("balkans", { name := "Balkans", lat10 := 420, lng10 := 210, code := none, country := none, kind := "regional", aliases := [] }),
  ("mediterranean", { name := "Mediterranean", lat10 := 350, lng10 := 180, code := none, country := none, kind := "regional", aliases := [] }),
  ("gulf", { name := "Gulf Region", lat10 := 260, lng10 := 510, code := none, country := none, kind := "regional", aliases := [] }),
  ("red sea", { name := "Red Sea", lat10 := 200, lng10 := 385, code := none, country := none, kind := "regional", aliases := [] })
]

/-- JS `Map.prototype.set`: replace in place if the key exists (keeping its
original insertion position), otherwise append. -/
def mapSet : List (String × GazEntry) → String → GazEntry → List (String × GazEntry)
  | [], k, v => [(k, v)]
  | p :: rest, k, v => if p.1 == k then (k, v) :: rest else p :: mapSet rest k v

/-- The `searchIndex` Map: countries (key, then each alias), then cities, then
regions, inserted with `mapSet` in source order. -/
def searchIndex : List (String × GazEntry) :=
  let m := COUNTRIES.foldl
    (fun m kv => kv.2.aliases.foldl (fun m a => mapSet m a kv.2) (mapSet m kv.1 kv.2)) []
  let m := MAJOR_CITIES.foldl (fun m kv => mapSet m kv.1 kv.2) m
  REGIONS.foldl (fun m kv => mapSet m kv.1 kv.2) m

/-- The object `extractLocation` returns on a successful match. -/
structure ExtractedLocation where
  name : String
  lat10 : Int
  lng10 : Int
  type : String
  countryCode : Option String
  confidence : String
deriving DecidableEq

/-- The source's `bestMatchLength` variable as a function of the tracked best
pair: the best key's length, or the initial 0 when no match has been kept. -/
def bestMatchLength : Option (String × GazEntry) → Nat
  | some b => b.1.length
  | none => 0

/-- The `for (const [key, data] of searchIndex.entries())` loop of
`extractLocation` over a portion `l` of the index, starting from accumulator
`b`: keep the first entry whose key passes the word-boundary regex test and is
strictly longer than the best so far.  The source tracks
`bestMatch`/`bestMatchLength` separately; here the best pair `(key, data)` is
tracked and its key length is `bestMatchLength`. -/
def extractBestFold (normalizedText : List Char) (l : List (String × GazEntry))
    (b : Option (String × GazEntry)) : Option (String × GazEntry) :=
  l.foldl
    (fun best kv =>
      if regexWordTest normalizedText kv.1.data then
        (if Nat.blt (bestMatchLength best) kv.1.length then some kv else best)
      else best)
    b

/-- The full best-match scan of `extractLocation`: the loop over the whole
`searchIndex` starting from `bestMatch = null`. -/
def extractLocationAux (normalizedText : List Char) : Option (String × GazEntry) :=
  extractBestFold normalizedText searchIndex none

/-- Model of `extractLocation(text)`.  Here `!text` is modelled by the empty-string test (the
callers in this repository always pass strings).  `bestMatch.code || bestMatch.country || null`
becomes `Option.or` (no entry has an empty-string code or country). -/
def extractLocation (text : String) : Option ExtractedLocation :=
  if text = "" then none
  else
    let normalizedText := jsLower text
    match extractLocationAux normalizedText with
    | some (key, bestMatch) =>
      some { name := bestMatch.name
             lat10 := bestMatch.lat10
             lng10 := bestMatch.lng10
             type := if bestMatch.kind == "region" then "regional" else "local"
             countryCode := bestMatch.code.or bestMatch.country
             confidence := if Nat.blt 5 key.length then "high" else "medium" }
    | none => none


def franceEntry : GazEntry :=
  { name := "France", lat10 := 462, lng10 := 22, code := some "FR",
    country := none, kind := "country", aliases := ["french", "paris"] }

/-! ## newsService.js — story correlator

Source: `calculateSimilarity` and `correlateStories` (src/services/newsService.js).
`NewsEvent` carries the fields `correlateStories` reads or writes (`id`, `source`,
`keywords`, `importance`, `correlatedWith`, `sourceCount`) plus representative
carried-along data fields (`title`, `summary`, `timestamp`, `category`); the
object spreads of the source copy any further fields unchanged, so they are
omitted.  Keyword sets are `List String` with JS-`Set` semantics recovered through
`dedup` (only cardinalities of the set operations are ever used).
-/

structure NewsEvent where
  id : String
  title : String
  summary : String
  source : String
  timestamp : Int
  category : String
  keywords : List String
  importance : Nat
  correlatedWith : List String
  sourceCount : Nat
deriving DecidableEq

/-- The `matches` count of `calculateSimilarity`: distinct keywords of `event1` also present
in `event2`'s keyword set. -/
def keywordMatches (event1 event2 : NewsEvent) : Nat :=
  (event1.keywords.dedup.filter (fun kw => event2.keywords.contains kw)).length

/-- The `totalUnique` count of `calculateSimilarity`. -/
def totalUniqueKeywords (event1 event2 : NewsEvent) : Nat :=
  (event1.keywords ++ event2.keywords).dedup.length

/-- Model of `calculateSimilarity(event1, event2) = matches / totalUnique` as an exact
rational (JS computes it in floating point; for the tiny integer operands
involved the comparison against the threshold below agrees). -/
def calculateSimilarity (event1 event2 : NewsEvent) : ℚ :=
  (keywordMatches event1 event2 : ℚ) / (totalUniqueKeywords event1 event2 : ℚ)

/-- The test `similarity >= threshold` of `correlateStories`.  When both keyword
sets are empty JS computes `0/0 = NaN` and `NaN >= threshold` is false, hence the
guard; otherwise the comparison is cross-multiplied so that it is kernel-computable
(`ratGE_iff` below proves it equivalent to `calculateSimilarity ≥ threshold`). -/
def similarityGE (event1 event2 : NewsEvent) (threshold : ℚ) : Bool :=
  let m := keywordMatches event1 event2
  let u := totalUniqueKeywords event1 event2
  if u = 0 then false
  else threshold.num * (u : Int) ≤ (m : Int) * (threshold.den : Int)

/-- The default threshold `0.3` of `correlateStories`, as the exact rational 3/10
(constructed directly so that `num`/`den` reduce definitionally). -/
def threshold03 : ℚ := ⟨3, 10, by norm_num, by norm_num⟩

/-- One iteration of the double loop of `correlateStories` on the pair of indices
`ij`: skip same-source pairs, otherwise on sufficient similarity push each
event's id onto the other's `correlatedWith` (if not already present) and bump
its `sourceCount`.  In the source the two events are distinct live objects
(`i < j`), so updating index `i` first and then index `j` reproduces the
mutation order. -/
def pairStep (threshold : ℚ) (es : List NewsEvent) (ij : Nat × Nat) : List NewsEvent :=
  match es[ij.1]?, es[ij.2]? with
  | some event1, some event2 =>
    if event1.source == event2.source then es
    else if similarityGE event1 event2 threshold then
      let es1 :=
        if event1.correlatedWith.contains event2.id then es
        else es.set ij.1 { event1 with
          correlatedWith := event1.correlatedWith ++ [event2.id],
          sourceCount := event1.sourceCount + 1 }
      if event2.correlatedWith.contains event1.id then es1
      else es1.set ij.2 { event2 with
        correlatedWith := event2.correlatedWith ++ [event1.id],
        sourceCount := event2.sourceCount + 1 }
    else es
  | _, _ => es

/-- All index pairs `(i, j)` with `i < j < n`, in the visit order of the
`for i … for j = i+1 …` double loop. -/
def pairIndices (n : Nat) : List (Nat × Nat) :=
  (List.range n).flatMap (fun i => (List.range' (i + 1) (n - (i + 1))).map (fun j => (i, j)))

/-- The initialisation map of `correlateStories`: spread the event and reset
`importance` to the default 2, `correlatedWith` to empty, `sourceCount` to 1. -/
def resetCorrelation (event : NewsEvent) : NewsEvent :=
  { event with importance := 2, correlatedWith := [], sourceCount := 1 }

/-- The final `forEach` of `correlateStories`: importance from `sourceCount`. -/
def updateImportance (event : NewsEvent) : NewsEvent :=
  if event.sourceCount ≥ 3 then { event with importance := 5 }
  else if event.sourceCount ≥ 2 then { event with importance := 4 }
  else { event with importance := 2 }

/-- Body of `correlateStories` after the initialisation map: the pairwise loop
followed by the importance recompute. -/
def correlatePass (threshold : ℚ) (correlatedEvents : List NewsEvent) : List NewsEvent :=
  ((pairIndices correlatedEvents.length).foldl (pairStep threshold) correlatedEvents).map
    updateImportance

/-- Model of `correlateStories(events, threshold)`. -/
def correlateStories (events : List NewsEvent) (threshold : ℚ) : List NewsEvent :=
  correlatePass threshold (events.map resetCorrelation)

/-- Model of `correlateStories(events)` with the default threshold `0.3`. -/
def correlateStoriesDefault (events : List NewsEvent) : List NewsEvent :=
  correlateStories events threshold03

def bbcEvent : NewsEvent :=
  { id := "b1", title := "", summary := "", source := "BBC", timestamp := 0,
    category := "", keywords := ["power grid", "ukraine"], importance := 2,
    correlatedWith := [], sourceCount := 1 }

def reutersEvent : NewsEvent :=
  { id := "r1", title := "", summary := "", source := "Reuters", timestamp := 0,
    category := "", keywords := ["power grid", "moldova", "ukraine"], importance := 2,
    correlatedWith := [], sourceCount := 1 }


/-! ## aggregatorService.js — fan-in, filters, sort, cache

Source: `isEnglish`, `filterEnglishOnly`, `filterLast24Hours`, `processEvents`,
`fetchAllEvents` and the module-level cache/health state
(src/services/aggregatorService.js).  `AggEvent` carries the fields this module
reads or writes (`title`, `eventType`, `timestamp`, `importance`, `isBreaking`,
`isRecent`, `sourceCount`, `correlatedWith`) plus `id`/`source`; the object spread
copies any further fields unchanged.  `timestamp` is the epoch-millisecond value
of the event's (valid) `Date`; JS `!event.timestamp` is then `timestamp = 0`.
The module-level mutable state (`cachedEvents`, `lastFetchTime`, `feedHealth`)
is threaded explicitly as `AggState`, `Date.now()` as the `now` parameter, and
the three already-settled adapter promises as `Except` values.  The number of
adapter invocations made by the call is returned as an explicit observation
(3 on a refresh, 0 on a cache hit).  The `catch` branch of `fetchAllEvents` is
unreachable in the model: `Promise.allSettled` never rejects and the merge,
filter and sort steps throw no exceptions.
-/

structure AggEvent where
  id : String
  title : String
  source : String
  eventType : Option String
  timestamp : Int
  importance : Nat
  isBreaking : Bool
  isRecent : Bool
  sourceCount : Nat
  correlatedWith : List String
deriving DecidableEq

structure SourceHealth where
  status : String
  lastCheck : Option Int
  eventCount : Nat
  error : Option String
deriving DecidableEq

structure FeedHealth where
  gdelt : SourceHealth
  usgs : SourceHealth
  rss : SourceHealth
deriving DecidableEq

structure AggState where
  cachedEvents : List AggEvent
  lastFetchTime : Option Int
  feedHealth : FeedHealth
deriving DecidableEq

def CACHE_DURATION_MS : Int := 5 * 60 * 1000

def MAX_AGE_MS : Int := 24 * 60 * 60 * 1000

/-- The non-Latin-script character test of `isEnglish` (Cyrillic, Arabic, CJK,
Hiragana, Katakana, Hangul ranges of the source regex). -/
def isNonLatinChar (c : Char) : Bool :=
  (0x400 ≤ c.toNat && c.toNat ≤ 0x4FF) || (0x600 ≤ c.toNat && c.toNat ≤ 0x6FF)
    || (0x4E00 ≤ c.toNat && c.toNat ≤ 0x9FFF) || (0x3040 ≤ c.toNat && c.toNat ≤ 0x309F)
    || (0x30A0 ≤ c.toNat && c.toNat ≤ 0x30FF) || (0xAC00 ≤ c.toNat && c.toNat ≤ 0xD7AF)

/-- The English function-word alternation of the `englishWords` regex. -/
def englishWords : List String :=
  ["the", "is", "are", "was", "were", "have", "has", "had", "been", "will",
   "would", "could", "should", "this", "that", "with", "from", "for", "and",
   "but", "not", "you", "all", "can", "her", "his", "they", "them", "its",
   "into", "your", "than", "then", "now", "out", "also", "back", "after",
   "just", "only", "some", "when", "where", "what", "which", "who", "how",
   "why", "more", "most", "any", "both", "each"]

/-- Model of `isEnglish(text)`: false on empty text (`!text`), false when any non-Latin
character occurs, otherwise the case-insensitive whole-word test for a common
English function word. -/
def isEnglish (text : String) : Bool :=
  if text = "" then false
  else if text.data.any isNonLatinChar then false
  else englishWords.any (fun w => regexWordTest (jsLower text) w.data)

/-- Model of `filterEnglishOnly(events)`: earthquakes always pass, everything else by the
English check on the title. -/
def filterEnglishOnly (events : List AggEvent) : List AggEvent :=
  events.filter (fun event =>
    if event.eventType == some "earthquake" then true else isEnglish event.title)

/-- Model of `filterLast24Hours(events)`: drop events with a falsy timestamp and events
older than 24 hours. -/
def filterLast24Hours (now : Int) (events : List AggEvent) : List AggEvent :=
  let cutoffTime := now - MAX_AGE_MS
  events.filter (fun event => event.timestamp != 0 && cutoffTime < event.timestamp)

/-- The sort comparator of `processEvents`: breaking first, then importance
descending, then timestamp descending (the JS comparator's return value). -/
def sortCompare (a b : AggEvent) : Int :=
  if a.isBreaking != b.isBreaking then (if b.isBreaking then 1 else -1)
  else if a.importance != b.importance then (b.importance : Int) - (a.importance : Int)
  else b.timestamp - a.timestamp

/-- Whether `a` may sort at or before `b`: the comparator is non-positive.  JS
`Array.prototype.sort` is a stable sort consistent with this total preorder, so
it is modelled by `List.mergeSort` (also stable). -/
def sortLe (a b : AggEvent) : Bool :=
  sortCompare a b ≤ 0

/-- Model of `processEvents(events)` with `Date.now()` passed as `now`: normalise the
timestamp (identity on the epoch value), flag `isRecent`, apply the
breaking-and-recent importance boost, reset `correlatedWith`, default
`sourceCount`, and sort. -/
def processEvents (now : Int) (events : List AggEvent) : List AggEvent :=
  let threeHoursAgo := now - 3 * 60 * 60 * 1000
  (events.map (fun event =>
    let timestamp := event.timestamp
    let isRecent := threeHoursAgo < timestamp
    let importance0 := if event.importance = 0 then 2 else event.importance
    let importance1 := if event.isBreaking && isRecent then min (importance0 + 1) 5
      else importance0
    { event with
      timestamp := timestamp,
      importance := importance1,
      isRecent := isRecent,
      correlatedWith := [],
      sourceCount := if event.sourceCount = 0 then 1 else event.sourceCount })
  ).mergeSort sortLe

/-- The per-source health record written for one settled adapter promise,
together with the events it contributed to `allEvents`. -/
def settleSource (res : Except String (List AggEvent)) (now : Int) :
    SourceHealth × List AggEvent :=
  match res with
  | .ok v =>
    ({ status := if 0 < v.length then "healthy" else "empty",
       lastCheck := some now, eventCount := v.length, error := none }, v)
  | .error reason =>
    ({ status := "error", lastCheck := some now, eventCount := 0,
       error := some reason }, [])

/-- Model of `fetchAllEvents(forceRefresh)`.  Returns the new module state, the event list
given to the caller, and the number of adapter invocations made. -/
def fetchAllEvents (forceRefresh : Bool) (now : Int)
    (gdeltResult usgsResult rssResult : Except String (List AggEvent))
    (st : AggState) : AggState × List AggEvent × Nat :=
  let cacheHit : Bool :=
    if forceRefresh then false
    else match st.lastFetchTime with
      | none => false
      | some t =>
        decide (0 < st.cachedEvents.length) && (t != 0) && decide (now - t < CACHE_DURATION_MS)
  if cacheHit then (st, st.cachedEvents, 0)
  else
    let gdelt := settleSource gdeltResult now
    let usgs := settleSource usgsResult now
    let rss := settleSource rssResult now
    let allEvents := gdelt.2 ++ usgs.2 ++ rss.2
    let englishEvents := filterEnglishOnly allEvents
    let recentEvents := filterLast24Hours now englishEvents
    let processedEvents := processEvents now recentEvents
    ({ cachedEvents := processedEvents,
       lastFetchTime := some now,
       feedHealth := { gdelt := gdelt.1, usgs := usgs.1, rss := rss.1 } },
     processedEvents, 3)

/-! ## Concrete instances used by witnesses and counterexamples -/

def c1inputEvent : NewsEvent :=
  { id := "e1", title := "", summary := "", source := "S", timestamp := 0,
    category := "", keywords := ["k"], importance := 5, correlatedWith := [],
    sourceCount := 1 }

def c7eventA : NewsEvent :=
  { id := "a", title := "", summary := "", source := "X", timestamp := 0,
    category := "", keywords := ["k"], importance := 2, correlatedWith := [],
    sourceCount := 1 }

def c7eventB : NewsEvent :=
  { c7eventA with id := "b", source := "Y" }

def c7eventC : NewsEvent :=
  { c7eventA with id := "c", source := "Y" }

def c7outA : NewsEvent :=
  { c7eventA with importance := 5, correlatedWith := ["b", "c"], sourceCount := 3 }

def c7wOut : NewsEvent :=
  { bbcEvent with importance := 4, correlatedWith := ["r1"], sourceCount := 2 }

def c4eventA : NewsEvent :=
  { id := "a", title := "", summary := "", source := "S", timestamp := 0,
    category := "", keywords := ["k"], importance := 2, correlatedWith := [],
    sourceCount := 1 }

def c4eventB : NewsEvent :=
  { c4eventA with id := "x", keywords := [] }

def c4eventC : NewsEvent :=
  { c4eventA with id := "x", source := "T" }

def c4outA : NewsEvent :=
  { c4eventA with importance := 4, correlatedWith := ["x"], sourceCount := 2 }

def c4outB : NewsEvent :=
  { c4eventB with importance := 2 }

def c4wA : NewsEvent :=
  { id := "a1", title := "", summary := "", source := "SRC", timestamp := 0,
    category := "", keywords := ["k"], importance := 2, correlatedWith := [],
    sourceCount := 1 }

def c4wB : NewsEvent :=
  { c4wA with id := "b1" }

/-- The fields of an event that identify it to the pairwise loop's same-source
test: its id together with its source. -/
def eventKey (e : NewsEvent) : String × String := (e.id, e.source)

/-- Loop invariant for C4: every id recorded in a `correlatedWith` set belongs
to some event of the list whose source differs from the recording event's
source. -/
def corrWitnessed (es : List NewsEvent) : Prop :=
  ∀ (i : Nat) (e : NewsEvent), es[i]? = some e → ∀ x ∈ e.correlatedWith,
    ∃ (j : Nat) (p : String × String),
      (es.map eventKey)[j]? = some p ∧ p.1 = x ∧ p.2 ≠ e.source

/-- Modelled from the claim's wording ("1 plus the number of distinct
corroborating sources found for it"): the number of distinct `source` values
among the events of the list whose id the event's `correlatedWith` set
references. -/
def distinctCorroboratingSources (events : List NewsEvent) (e : NewsEvent) : Nat :=
  ((events.filter (fun f => e.correlatedWith.contains f.id)).map
    (fun f => f.source)).dedup.length

/-- The adjacency ordering claimed for the final sort, written from the claim's
words: breaking strictly first, or equal breaking flags and importance
descending, or additionally equal importance and timestamp descending. -/
def breakingImportanceTimeOrdered (a b : AggEvent) : Prop :=
  (a.isBreaking = true ∧ b.isBreaking = false) ∨
  (a.isBreaking = b.isBreaking ∧ b.importance ≤ a.importance) ∨
  (a.isBreaking = b.isBreaking ∧ a.importance = b.importance ∧ b.timestamp ≤ a.timestamp)

def unknownHealth : SourceHealth :=
  { status := "unknown", lastCheck := none, eventCount := 0, error := none }

def c2cachedEvent : AggEvent :=
  { id := "p1", title := "previous", source := "SRC", eventType := none,
    timestamp := 500, importance := 3, isBreaking := false, isRecent := false,
    sourceCount := 1, correlatedWith := [] }

def c2state : AggState :=
  { cachedEvents := [c2cachedEvent], lastFetchTime := some 50,
    feedHealth := { gdelt := unknownHealth, usgs := unknownHealth, rss := unknownHealth } }

def c3state0 : AggState :=
  { cachedEvents := [], lastFetchTime := none,
    feedHealth := { gdelt := unknownHealth, usgs := unknownHealth, rss := unknownHealth } }

def c3rawEvent : AggEvent :=
  { id := "q1", title := "quake", source := "USGS", eventType := some "earthquake",
    timestamp := 900, importance := 3, isBreaking := false, isRecent := false,
    sourceCount := 1, correlatedWith := [] }

def c3processedEvent : AggEvent :=
  { c3rawEvent with isRecent := true }

def c3state1 : AggState :=
  { cachedEvents := [c3processedEvent], lastFetchTime := some 1000,
    feedHealth :=
      { gdelt := { status := "empty", lastCheck := some 1000, eventCount := 0, error := none },
        usgs := { status := "healthy", lastCheck := some 1000, eventCount := 1, error := none },
        rss := { status := "empty", lastCheck := some 1000, eventCount := 0, error := none } } }

/-! ## Helper lemmas -/

/-- Setting a position of a list to the value it already holds is the identity. -/
theorem set_getElem_self {α : Type} (l : List α) (i : Nat) (v : α)
    (h : l[i]? = some v) : l.set i v = l := by
  induction l generalizing i with
  | nil => rfl
  | cons a as ih =>
    cases i with
    | zero => simp at h; simp [h]
    | succ n => simp at h ⊢; exact ih n h

/-- The cross-multiplied threshold test of `similarityGE` agrees with the exact
rational comparison `calculateSimilarity ≥ threshold` whenever the union of the
keyword sets is non-empty (the case JS computes a real number for). -/
theorem similarityGE_iff (event1 event2 : NewsEvent) (threshold : ℚ)
    (hu : 0 < totalUniqueKeywords event1 event2) :
    similarityGE event1 event2 threshold = true ↔
      calculateSimilarity event1 event2 ≥ threshold := by
  have hu' : (0 : ℚ) < (totalUniqueKeywords event1 event2 : ℚ) := by exact_mod_cast hu
  have hd : (0 : ℚ) < (threshold.den : ℚ) := by exact_mod_cast threshold.den_pos
  unfold similarityGE calculateSimilarity
  rw [if_neg (by omega)]
  rw [ge_iff_le]
  conv_rhs => rw [← Rat.num_div_den threshold]
  rw [div_le_div_iff₀ hd hu']
  simp only [decide_eq_true_eq]
  constructor
  · intro h; exact_mod_cast h
  · intro h; exact_mod_cast h

/-! ## C5 — severity classifier: critical keywords dominate -/

/-- C5 (as stated, refuted): the claim reads the scored text as the plain
concatenation `title + summary`, but the source scores `title + ' ' + summary`;
with `title = "wa"` and `summary = "r"` the concatenation contains the critical
keyword `"war"` yet the classifier never sees it and returns 2. -/
theorem classify_critical_counterexample :
    ¬ (∀ (title summary : String) (breaking recent : Bool),
        (∃ kw ∈ SEVERITY_KEYWORDS.critical,
          containsSub (jsLower (title ++ summary)) kw.data = true) →
        calculateSeverity title summary breaking recent = 5) := by
  intro h
  have h2 := h "wa" "r" false false ⟨"war", by decide, by decide⟩
  exact absurd h2 (by decide)

/-- C5 (amended): if the space-separated concatenation `title + ' ' + summary`
contains a critical-tier keyword case-insensitively, `calculateSeverity` returns 5
regardless of accompanying high/medium keywords and of the two flags. -/
theorem classify_critical_scores_five (title description : String)
    (breaking recent : Bool)
    (h : SEVERITY_KEYWORDS.critical.any
      (fun kw => containsSub (jsLower (title ++ " " ++ description)) kw.data) = true) :
    calculateSeverity title description breaking recent = 5 := by
  unfold calculateSeverity
  simp only [h]
  norm_num

/-- Witness for C5: a text containing a critical keyword ("war") together with a
high keyword ("protest"), a medium keyword ("election") and both flags set still
scores 5. -/
theorem classify_critical_scores_five_witness :
    calculateSeverity "War zone" "protest before election" true true = 5 :=
  classify_critical_scores_five "War zone" "protest before election" true true (by decide)

/-! ## C10 — GDELT timestamp parser -/

/-- C10: `parseGDELTDate` defaults to the fetch time only for missing/empty
input; a well-formed compact timestamp parses to the corresponding instant
(2024-01-15T10:30:45Z ↦ 1705314645000 ms); but an unparseable non-empty string
produces an Invalid Date (`none`), not the fetch-time default the spec
describes — the `catch` branch meant to provide the default is dead code because
`new Date(string)` never throws. -/
theorem parseGDELTDate_invalid_not_defaulted :
    (∀ now : Int, parseGDELTDate none now = some now) ∧
    (∀ now : Int, parseGDELTDate (some "") now = some now) ∧
    (∀ now : Int, parseGDELTDate (some "20240115103045") now = some 1705314645000) ∧
    (∀ now : Int, parseGDELTDate (some "xxxxxxxxxxxxxx") now = none) :=
  ⟨fun _ => rfl, fun _ => rfl, fun _ => rfl, fun _ => rfl⟩

/-! ## Story-correlator lemmas -/

/-- Mapping `f` over a list after overwriting position `i` with a value `f`-equal
to the one already there leaves the mapped list unchanged. -/
theorem map_set_self {β : Type} (f : NewsEvent → β) (es : List NewsEvent) (i : Nat)
    (e v : NewsEvent) (h : es[i]? = some e) (hv : f v = f e) :
    (es.set i v).map f = es.map f := by
  rw [List.map_set, hv]
  exact set_getElem_self _ _ _ (by rw [List.getElem?_map, h]; rfl)

/-- Inside the correlation branch of `pairStep` the two indices differ: the two
events have different `source` values, so they cannot be the same list entry. -/
theorem pairStep_ne_indices (es : List NewsEvent) (ij : Nat × Nat) (e1 e2 : NewsEvent)
    (h1 : es[ij.1]? = some e1) (h2 : es[ij.2]? = some e2)
    (hsrc : ¬ (e1.source == e2.source) = true) : ij.1 ≠ ij.2 := by
  intro he
  rw [he, h2] at h1
  cases h1
  exact hsrc (by simp)

/-- The map `pairStep` only rewrites the `correlatedWith`/`sourceCount` fields, so any
map that ignores those two fields is unchanged by it. -/
theorem pairStep_map_eq {β : Type} (f : NewsEvent → β)
    (hf : ∀ (e : NewsEvent) (cw : List String) (sc : Nat),
      f { e with correlatedWith := cw, sourceCount := sc } = f e)
    (t : ℚ) (es : List NewsEvent) (ij : Nat × Nat) :
    (pairStep t es ij).map f = es.map f := by
  unfold pairStep
  cases h1 : es[ij.1]? with
  | none => rfl
  | some e1 =>
    cases h2 : es[ij.2]? with
    | none => rfl
    | some e2 =>
      dsimp only
      split_ifs with hsrc hsim hc2 hc1 hc1'
      · rfl
      · rfl
      · exact map_set_self f es ij.1 e1 _ h1 (hf e1 _ _)
      · exact map_set_self f es ij.2 e2 _ h2 (hf e2 _ _)
      · have hne := pairStep_ne_indices es ij e1 e2 h1 h2 hsrc
        rw [map_set_self f _ ij.2 e2 _ (by rw [List.getElem?_set_ne hne]; exact h2) (hf e2 _ _)]
        exact map_set_self f es ij.1 e1 _ h1 (hf e1 _ _)
      · rfl

/-- The whole pairwise loop preserves any map that ignores
`correlatedWith`/`sourceCount`. -/
theorem foldl_pairStep_map_eq {β : Type} (f : NewsEvent → β)
    (hf : ∀ (e : NewsEvent) (cw : List String) (sc : Nat),
      f { e with correlatedWith := cw, sourceCount := sc } = f e)
    (t : ℚ) (l : List (Nat × Nat)) (es : List NewsEvent) :
    (l.foldl (pairStep t) es).map f = es.map f := by
  induction l generalizing es with
  | nil => rfl
  | cons p l ih => rw [List.foldl_cons, ih, pairStep_map_eq f hf]

theorem resetCorrelation_updateImportance (e : NewsEvent) :
    resetCorrelation (updateImportance e) = resetCorrelation e := by
  unfold updateImportance
  split_ifs <;> rfl

/-- Re-running the initialisation map of `correlateStories` on its own output
recovers the initialisation of the original input: the correlator only rewrites
the three fields the initialisation resets. -/
theorem correlateStories_map_reset (events : List NewsEvent) (threshold : ℚ) :
    (correlateStories events threshold).map resetCorrelation =
      events.map resetCorrelation := by
  unfold correlateStories correlatePass
  rw [List.map_map]
  rw [show resetCorrelation ∘ updateImportance = resetCorrelation from
    funext resetCorrelation_updateImportance]
  rw [foldl_pairStep_map_eq resetCorrelation (fun e cw sc => rfl)]
  rw [List.map_map]
  rfl

/-! ## C9 — idempotence of the correlator -/

/-- C9: `correlateStories` is idempotent (with the same threshold); in
particular no `correlatedWith` set changes on the second application. -/
theorem correlate_idempotent (events : List NewsEvent) (threshold : ℚ) :
    correlateStories (correlateStories events threshold) threshold =
      correlateStories events threshold := by
  show correlatePass threshold
    ((correlateStories events threshold).map resetCorrelation) = _
  rw [correlateStories_map_reset]
  rfl

/-! ## C1 — importance under correlation -/

/-- C1 (as stated, refuted): `correlateStories` does not only raise importance —
it resets it.  A single event entering with the Source-Adapter importance 5 and
no correlation partner leaves with importance 2. -/
theorem correlate_importance_monotone_counterexample :
    ¬ (∀ (events : List NewsEvent) (k : Nat) (e e' : NewsEvent),
        events[k]? = some e → (correlateStoriesDefault events)[k]? = some e' →
        e.importance ≤ e'.importance) := by
  intro h
  have h2 := h [c1inputEvent] 0 c1inputEvent { c1inputEvent with importance := 2 }
    (by decide) (by decide)
  exact absurd h2 (by decide)

/-- C1 (amended): the output importance of `correlateStories` is a pure function
of the output `sourceCount` — 5 for ≥ 3 sources, 4 for 2 sources, and the
default 2 otherwise (discarding, not preserving, the pre-correlation value) —
and in particular always lies in [1, 5]. -/
theorem correlate_importance_tiers (events : List NewsEvent) (threshold : ℚ)
    (e : NewsEvent) (he : e ∈ correlateStories events threshold) :
    e.importance = (if 3 ≤ e.sourceCount then 5 else if 2 ≤ e.sourceCount then 4 else 2) ∧
    1 ≤ e.importance ∧ e.importance ≤ 5 ∧
    (e.sourceCount < 2 → e.importance = 2) := by
  unfold correlateStories correlatePass at he
  rw [List.mem_map] at he
  obtain ⟨a, _, rfl⟩ := he
  unfold updateImportance
  split_ifs with h3 h2 <;> refine ⟨?_, ?_, ?_, ?_⟩ <;> simp <;> omega

/-- Witness for C1 (amended): the single-event instance. -/
theorem correlate_importance_tiers_witness :
    ({ c1inputEvent with importance := 2 } : NewsEvent).importance =
      (if 3 ≤ ({ c1inputEvent with importance := 2 } : NewsEvent).sourceCount then 5
       else if 2 ≤ ({ c1inputEvent with importance := 2 } : NewsEvent).sourceCount then 4
       else 2) ∧
    1 ≤ ({ c1inputEvent with importance := 2 } : NewsEvent).importance ∧
    ({ c1inputEvent with importance := 2 } : NewsEvent).importance ≤ 5 ∧
    (({ c1inputEvent with importance := 2 } : NewsEvent).sourceCount < 2 →
      ({ c1inputEvent with importance := 2 } : NewsEvent).importance = 2) :=
  correlate_importance_tiers [c1inputEvent] threshold03 _ (by decide)

/-! ## C7 — sourceCount bookkeeping -/

/-- One pair step preserves the invariant that `sourceCount` is one more than the
number of recorded correlation partners (both are bumped together). -/
theorem pairStep_scInv (t : ℚ) (es : List NewsEvent) (ij : Nat × Nat)
    (h : ∀ e ∈ es, e.sourceCount = 1 + e.correlatedWith.length) :
    ∀ e ∈ pairStep t es ij, e.sourceCount = 1 + e.correlatedWith.length := by
  unfold pairStep
  cases h1 : es[ij.1]? with
  | none => exact h
  | some e1 =>
    cases h2 : es[ij.2]? with
    | none => exact h
    | some e2 =>
      have hb1 := h e1 (List.getElem?_mem h1)
      have hb2 := h e2 (List.getElem?_mem h2)
      have hv1 : ∀ e ∈ es.set ij.1 { e1 with
          correlatedWith := e1.correlatedWith ++ [e2.id],
          sourceCount := e1.sourceCount + 1 },
          e.sourceCount = 1 + e.correlatedWith.length := by
        intro e hm
        rcases List.mem_or_eq_of_mem_set hm with hm' | rfl
        · exact h e hm'
        · simp only [List.length_append, List.length_cons, List.length_nil]
          omega
      dsimp only
      split_ifs with hsrc hsim hc2 hc1 hc1'
      · exact h
      · exact h
      · exact hv1
      · intro e hm
        rcases List.mem_or_eq_of_mem_set hm with hm' | rfl
        · exact h e hm'
        · simp only [List.length_append, List.length_cons, List.length_nil]
          omega
      · intro e hm
        rcases List.mem_or_eq_of_mem_set hm with hm' | rfl
        · exact hv1 e hm'
        · simp only [List.length_append, List.length_cons, List.length_nil]
          omega
      · exact h

theorem foldl_pairStep_scInv (t : ℚ) (l : List (Nat × Nat)) (es : List NewsEvent)
    (h : ∀ e ∈ es, e.sourceCount = 1 + e.correlatedWith.length) :
    ∀ e ∈ l.foldl (pairStep t) es, e.sourceCount = 1 + e.correlatedWith.length := by
  induction l generalizing es with
  | nil => exact h
  | cons p l ih =>
    rw [List.foldl_cons]
    exact ih _ (pairStep_scInv t es p h)

/-- C7 (amended): in the output of `correlateStories`, `sourceCount` is 1 plus
the number of recorded correlation *partners* (the size of `correlatedWith`),
and hence always at least 1. -/
theorem correlate_sourceCount_partners (events : List NewsEvent) (threshold : ℚ)
    (e : NewsEvent) (he : e ∈ correlateStories events threshold) :
    e.sourceCount = 1 + e.correlatedWith.length ∧ 1 ≤ e.sourceCount := by
  unfold correlateStories correlatePass at he
  rw [List.mem_map] at he
  obtain ⟨a, ha, rfl⟩ := he
  have hP := foldl_pairStep_scInv threshold _ _
    (by intro x hx; rw [List.mem_map] at hx; obtain ⟨y, _, rfl⟩ := hx; rfl) a ha
  have hsc : (updateImportance a).sourceCount = a.sourceCount := by
    unfold updateImportance; split_ifs <;> rfl
  have hcw : (updateImportance a).correlatedWith = a.correlatedWith := by
    unfold updateImportance; split_ifs <;> rfl
  rw [hsc, hcw]
  exact ⟨hP, by omega⟩

/-- Witness for C7 (amended): the two-source scenario. -/
theorem correlate_sourceCount_partners_witness :
    c7wOut.sourceCount = 1 + c7wOut.correlatedWith.length ∧ 1 ≤ c7wOut.sourceCount :=
  correlate_sourceCount_partners [bbcEvent, reutersEvent] threshold03 c7wOut (by decide)

/-- C7 (as stated, refuted): `sourceCount` counts correlation partners, not
distinct corroborating sources.  With partners `b` and `c` both from source
`"Y"`, event `a` ends with `sourceCount = 3` but only one distinct
corroborating source. -/
theorem correlate_sourceCount_counterexample :
    ¬ (∀ (events : List NewsEvent) (e : NewsEvent),
        e ∈ correlateStoriesDefault events →
        e.sourceCount = 1 + distinctCorroboratingSources (correlateStoriesDefault events) e) := by
  intro h
  have h2 := h [c7eventA, c7eventB, c7eventC] c7outA (by decide)
  exact absurd h2 (by decide)

/-! ## C4 — no same-source correlation edges -/

/-- Overwriting position `k` with a value of the same id/source whose new
`correlatedWith` entries are all justified preserves the C4 loop invariant. -/
theorem corrWitnessed_set (es : List NewsEvent) (k : Nat) (ek v : NewsEvent)
    (hk : es[k]? = some ek) (hid : v.id = ek.id) (hsrcv : v.source = ek.source)
    (hcw : ∀ x ∈ v.correlatedWith, x ∈ ek.correlatedWith ∨
      ∃ (j : Nat) (p : String × String),
        (es.map eventKey)[j]? = some p ∧ p.1 = x ∧ p.2 ≠ ek.source)
    (h : corrWitnessed es) : corrWitnessed (es.set k v) := by
  have hkey : (es.set k v).map eventKey = es.map eventKey :=
    map_set_self eventKey es k ek v hk (by unfold eventKey; rw [hid, hsrcv])
  unfold corrWitnessed
  intro i e hi x hx
  rw [hkey]
  by_cases hik : k = i
  · subst hik
    have hlen : k < es.length := by
      rcases Nat.lt_or_ge k es.length with hl | hl
      · exact hl
      · rw [List.getElem?_eq_none hl] at hk; cases hk
    rw [List.getElem?_set_self hlen] at hi
    cases hi
    rcases hcw x hx with hx' | ⟨j, p, hj, hp1, hp2⟩
    · obtain ⟨j, p, hj, hp1, hp2⟩ := h k ek hk x hx'
      exact ⟨j, p, hj, hp1, by rw [hsrcv]; exact hp2⟩
    · exact ⟨j, p, hj, hp1, by rw [hsrcv]; exact hp2⟩
  · rw [List.getElem?_set_ne hik] at hi
    exact h i e hi x hx

/-- One pair step preserves the C4 loop invariant: the only ids it records are
those of the partner event, whose source the step has checked to differ. -/
theorem pairStep_corrWitnessed (t : ℚ) (es : List NewsEvent) (ij : Nat × Nat)
    (h : corrWitnessed es) : corrWitnessed (pairStep t es ij) := by
  unfold pairStep
  cases h1 : es[ij.1]? with
  | none => exact h
  | some e1 =>
    cases h2 : es[ij.2]? with
    | none => exact h
    | some e2 =>
      dsimp only
      split_ifs with hsrc hsim hc2 hc1 hc1'
      · exact h
      · exact h
      · refine corrWitnessed_set es ij.1 e1 _ h1 rfl rfl ?_ h
        intro x hx
        rcases List.mem_append.mp hx with hx' | hx'
        · exact Or.inl hx'
        · have hxe : x = e2.id := by simpa using hx'
          refine Or.inr ⟨ij.2, eventKey e2, ?_, ?_, ?_⟩
          · rw [List.getElem?_map, h2]; rfl
          · rw [hxe]; rfl
          · show e2.source ≠ e1.source
            intro hcontra
            exact hsrc (by simp [hcontra])
      · refine corrWitnessed_set es ij.2 e2 _ h2 rfl rfl ?_ h
        intro x hx
        rcases List.mem_append.mp hx with hx' | hx'
        · exact Or.inl hx'
        · have hxe : x = e1.id := by simpa using hx'
          refine Or.inr ⟨ij.1, eventKey e1, ?_, ?_, ?_⟩
          · rw [List.getElem?_map, h1]; rfl
          · rw [hxe]; rfl
          · show e1.source ≠ e2.source
            intro hcontra
            exact hsrc (by simp [hcontra])
      · have hne := pairStep_ne_indices es ij e1 e2 h1 h2 hsrc
        have hW1 : corrWitnessed (es.set ij.1 { e1 with
            correlatedWith := e1.correlatedWith ++ [e2.id],
            sourceCount := e1.sourceCount + 1 }) := by
          refine corrWitnessed_set es ij.1 e1 _ h1 rfl rfl ?_ h
          intro x hx
          rcases List.mem_append.mp hx with hx' | hx'
          · exact Or.inl hx'
          · have hxe : x = e2.id := by simpa using hx'
            refine Or.inr ⟨ij.2, eventKey e2, ?_, ?_, ?_⟩
            · rw [List.getElem?_map, h2]; rfl
            · rw [hxe]; rfl
            · show e2.source ≠ e1.source
              intro hcontra
              exact hsrc (by simp [hcontra])
        have hkeyset : (es.set ij.1 { e1 with
            correlatedWith := e1.correlatedWith ++ [e2.id],
            sourceCount := e1.sourceCount + 1 }).map eventKey = es.map eventKey :=
          map_set_self eventKey es ij.1 e1 _ h1 rfl
        refine corrWitnessed_set _ ij.2 e2 _
          (by rw [List.getElem?_set_ne hne]; exact h2) rfl rfl ?_ hW1
        intro x hx
        rcases List.mem_append.mp hx with hx' | hx'
        · exact Or.inl hx'
        · have hxe : x = e1.id := by simpa using hx'
          refine Or.inr ⟨ij.1, eventKey e1, ?_, ?_, ?_⟩
          · rw [hkeyset, List.getElem?_map, h1]; rfl
          · rw [hxe]; rfl
          · show e1.source ≠ e2.source
            intro hcontra
            exact hsrc (by simp [hcontra])
      · exact h

theorem foldl_pairStep_corrWitnessed (t : ℚ) (l : List (Nat × Nat))
    (es : List NewsEvent) (h : corrWitnessed es) :
    corrWitnessed (l.foldl (pairStep t) es) := by
  induction l generalizing es with
  | nil => exact h
  | cons p l ih =>
    rw [List.foldl_cons]
    exact ih _ (pairStep_corrWitnessed t es p h)

/-- The initialisation map of `correlateStories` trivially satisfies the C4
invariant: all `correlatedWith` sets start empty. -/
theorem corrWitnessed_init (events : List NewsEvent) :
    corrWitnessed (events.map resetCorrelation) := by
  unfold corrWitnessed
  intro i e hi x hx
  rw [List.getElem?_map] at hi
  cases hev : events[i]? with
  | none => rw [hev] at hi; cases hi
  | some y =>
    rw [hev] at hi
    injection hi with hi'
    rw [← hi'] at hx
    simp [resetCorrelation] at hx

/-- One direction of C4: under pairwise-distinct input ids, an output event
never records the id of a same-source output event. -/
theorem correlate_same_source_aux (events : List NewsEvent) (threshold : ℚ)
    (hids : (events.map (fun e => e.id)).Nodup)
    (i j : Nat) (ei ej : NewsEvent)
    (hi : (correlateStories events threshold)[i]? = some ei)
    (hj : (correlateStories events threshold)[j]? = some ej)
    (hsrc : ei.source = ej.source) :
    ¬ (ej.id ∈ ei.correlatedWith) := by
  intro hmem
  unfold correlateStories correlatePass at hi hj
  rw [List.getElem?_map] at hi hj
  obtain ⟨ai, hAi, hupdi⟩ := Option.map_eq_some'.mp hi
  obtain ⟨aj, hAj, hupdj⟩ := Option.map_eq_some'.mp hj
  have hkeymap : ((pairIndices (events.map resetCorrelation).length).foldl
      (pairStep threshold) (events.map resetCorrelation)).map eventKey =
      events.map eventKey := by
    rw [foldl_pairStep_map_eq eventKey (fun e cw sc => rfl), List.map_map]
    rfl
  have hQ := foldl_pairStep_corrWitnessed threshold
    (pairIndices (events.map resetCorrelation).length) _ (corrWitnessed_init events)
  have hcwi : ai.correlatedWith = ei.correlatedWith := by
    rw [← hupdi]; unfold updateImportance; split_ifs <;> rfl
  have hsrci : ai.source = ei.source := by
    rw [← hupdi]; unfold updateImportance; split_ifs <;> rfl
  have hidj : aj.id = ej.id := by
    rw [← hupdj]; unfold updateImportance; split_ifs <;> rfl
  have hsrcj : aj.source = ej.source := by
    rw [← hupdj]; unfold updateImportance; split_ifs <;> rfl
  obtain ⟨k, p, hk, hp1, hp2⟩ := hQ i ai hAi ej.id (by rw [hcwi]; exact hmem)
  rw [hkeymap] at hk
  have hkj : (events.map eventKey)[j]? = some (eventKey aj) := by
    rw [← hkeymap, List.getElem?_map, hAj]
    rfl
  have hklt : k < (events.map eventKey).length := by
    rcases Nat.lt_or_ge k (events.map eventKey).length with hl | hl
    · exact hl
    · rw [List.getElem?_eq_none hl] at hk; cases hk
  have hidsK : ((events.map eventKey).map Prod.fst)[k]? = some ej.id := by
    rw [List.getElem?_map, hk]
    simp [hp1]
  have hidsJ : ((events.map eventKey).map Prod.fst)[j]? = some ej.id := by
    rw [List.getElem?_map, hkj]
    simp [eventKey, hidj]
  have hklt' : k < ((events.map eventKey).map Prod.fst).length := by simpa using hklt
  have hnod : ((events.map eventKey).map Prod.fst).Nodup := by
    rw [List.map_map]
    exact hids
  have hkeq : k = j := List.getElem?_inj hklt' hnod (hidsK.trans hidsJ.symm)
  subst hkeq
  rw [hkj] at hk
  injection hk with hk'
  apply hp2
  rw [← hk']
  show (eventKey aj).2 = ai.source
  unfold eventKey
  rw [hsrcj, ← hsrc, hsrci]

/-- C4 (amended): when the input events carry pairwise-distinct ids, two output
events sharing the same `source` are never linked: neither id appears in the
other's `correlatedWith` set, regardless of keyword similarity.  (The
distinct-id hypothesis is what the counterexample forces: with colliding ids an
edge to a third event is indistinguishable from an edge inside the pair.) -/
theorem correlate_same_source_no_edge (events : List NewsEvent) (threshold : ℚ)
    (hids : (events.map (fun e => e.id)).Nodup)
    (i j : Nat) (ei ej : NewsEvent)
    (hi : (correlateStories events threshold)[i]? = some ei)
    (hj : (correlateStories events threshold)[j]? = some ej)
    (hsrc : ei.source = ej.source) :
    ¬ (ej.id ∈ ei.correlatedWith) ∧ ¬ (ei.id ∈ ej.correlatedWith) :=
  ⟨correlate_same_source_aux events threshold hids i j ei ej hi hj hsrc,
   correlate_same_source_aux events threshold hids j i ej ei hj hi hsrc.symm⟩

/-- Witness for C4 (amended): two same-source events with identical keyword sets
end uncorrelated. -/
theorem correlate_same_source_no_edge_witness :
    ¬ (c4wB.id ∈ c4wA.correlatedWith) ∧ ¬ (c4wA.id ∈ c4wB.correlatedWith) :=
  correlate_same_source_no_edge [c4wA, c4wB] threshold03 (by decide) 0 1 c4wA c4wB
    (by decide) (by decide) rfl

/-- C4 (as stated, refuted): without distinct ids the property fails.  Events
`a` (source `"S"`) and `b` (source `"S"`) are a same-source output pair, yet
`b`'s id `"x"` is in `a`'s `correlatedWith` — it was recorded for the
different-source event `c`, which also has id `"x"`. -/
theorem correlate_same_source_counterexample :
    ¬ (∀ (events : List NewsEvent) (i j : Nat) (ei ej : NewsEvent),
        (correlateStoriesDefault events)[i]? = some ei →
        (correlateStoriesDefault events)[j]? = some ej →
        ei.source = ej.source → ¬ (ej.id ∈ ei.correlatedWith)) := by
  intro h
  exact h [c4eventA, c4eventB, c4eventC] 0 1 c4outA c4outB
    (by decide) (by decide) (by decide) (by decide)

/-! ## C8 — final ordering -/

/-- Characterisation of the comparator-derived order of `processEvents`. -/
theorem sortLe_iff (a b : AggEvent) : sortLe a b = true ↔
    ((a.isBreaking = true ∧ b.isBreaking = false) ∨
     (a.isBreaking = b.isBreaking ∧ b.importance < a.importance) ∨
     (a.isBreaking = b.isBreaking ∧ a.importance = b.importance ∧
       b.timestamp ≤ a.timestamp)) := by
  unfold sortLe sortCompare
  by_cases him : a.importance = b.importance <;>
    cases hab : a.isBreaking <;> cases hbb : b.isBreaking <;>
      simp [him, hab, hbb] <;> omega

theorem sortLe_total (a b : AggEvent) : (sortLe a b || sortLe b a) = true := by
  rw [Bool.or_eq_true, sortLe_iff, sortLe_iff]
  cases hab : a.isBreaking <;> cases hbb : b.isBreaking <;> simp <;> omega

theorem sortLe_trans (a b c : AggEvent) (h1 : sortLe a b = true)
    (h2 : sortLe b c = true) : sortLe a c = true := by
  rw [sortLe_iff] at h1 h2 ⊢
  cases ha : a.isBreaking <;> cases hb : b.isBreaking <;> cases hc : c.isBreaking <;>
    simp [ha, hb, hc] at h1 h2 ⊢ <;> omega

/-- The output of `processEvents` is adjacency-ordered as claimed. -/
theorem processEvents_chain (now : Int) (events : List AggEvent) :
    (processEvents now events).Chain' breakingImportanceTimeOrdered := by
  unfold processEvents
  have hs := List.sorted_mergeSort
    (fun x y z hxy hyz => sortLe_trans x y z hxy hyz)
    (fun x y => sortLe_total x y)
    (events.map (fun event =>
      let timestamp := event.timestamp
      let isRecent := now - 3 * 60 * 60 * 1000 < timestamp
      let importance0 := if event.importance = 0 then 2 else event.importance
      let importance1 := if event.isBreaking && isRecent then min (importance0 + 1) 5
        else importance0
      { event with
        timestamp := timestamp,
        importance := importance1,
        isRecent := isRecent,
        correlatedWith := [],
        sourceCount := if event.sourceCount = 0 then 1 else event.sourceCount }))
  refine List.Chain'.imp ?_ hs.chain'
  intro a b hab
  rw [sortLe_iff] at hab
  rcases hab with h | h | h
  · exact Or.inl h
  · exact Or.inr (Or.inl ⟨h.1, Nat.le_of_lt h.2⟩)
  · exact Or.inr (Or.inr h)

/-- C8: every refresh result — the output of `processEvents`, which is what a
(forced or cache-missing) refresh of `fetchAllEvents` returns — is in the
claimed stable order: breaking first, then importance descending, then
timestamp descending, for every adjacent pair. -/
theorem fetchAll_refresh_sorted :
    (∀ (now : Int) (events : List AggEvent),
      (processEvents now events).Chain' breakingImportanceTimeOrdered) ∧
    (∀ (now : Int) (g u r : Except String (List AggEvent)) (st : AggState),
      ((fetchAllEvents true now g u r st).2.1).Chain' breakingImportanceTimeOrdered) :=
  ⟨processEvents_chain, fun now _ _ _ _ => processEvents_chain now _⟩

/-! ## C2 — forced refresh with all adapters failed -/

/-- C2 (as stated, refuted): when all three adapters reject on a forced refresh
the call does *not* return the previous cache's content — it returns the empty
processed result (and overwrites the cache with it).  `Promise.allSettled` never
rejects, so the `catch` that would return the stale cache is not reached. -/
theorem fetchAll_all_failed_counterexample :
    ¬ (∀ (st : AggState) (now : Int) (r1 r2 r3 : String),
        (fetchAllEvents true now (Except.error r1) (Except.error r2)
          (Except.error r3) st).2.1 = st.cachedEvents) := by
  intro h
  have h2 := h c2state 2000 "boom" "boom" "boom"
  have hempty : (fetchAllEvents true 2000 (Except.error "boom") (Except.error "boom")
      (Except.error "boom") c2state).2.1 = [] := by
    simp [fetchAllEvents, processEvents, filterEnglishOnly, filterLast24Hours, settleSource]
  rw [hempty] at h2
  exact absurd h2 (by decide)

/-- C2 (amended): on a forced refresh with all three adapters failed,
`fetchAllEvents` returns the empty event list, replaces the cache with it, and
records health status `"error"` for all three sources (this last part of the
claim does hold). -/
theorem fetchAll_all_failed_empty_and_error_health (st : AggState) (now : Int)
    (r1 r2 r3 : String) :
    (fetchAllEvents true now (Except.error r1) (Except.error r2)
      (Except.error r3) st).2.1 = [] ∧
    (fetchAllEvents true now (Except.error r1) (Except.error r2)
      (Except.error r3) st).1.cachedEvents = [] ∧
    (fetchAllEvents true now (Except.error r1) (Except.error r2)
      (Except.error r3) st).1.feedHealth.gdelt.status = "error" ∧
    (fetchAllEvents true now (Except.error r1) (Except.error r2)
      (Except.error r3) st).1.feedHealth.usgs.status = "error" ∧
    (fetchAllEvents true now (Except.error r1) (Except.error r2)
      (Except.error r3) st).1.feedHealth.rss.status = "error" := by
  refine ⟨?_, ?_, rfl, rfl, rfl⟩ <;>
    simp [fetchAllEvents, processEvents, filterEnglishOnly, filterLast24Hours, settleSource]

/-! ## C3 — cache hit makes no adapter calls -/

/-- The call `fetchAllEvents` always returns exactly the event list stored in the state
it leaves behind (the refresh branch stores what it returns; the cache branch
returns what is stored). -/
theorem fetchAll_returns_cache (force : Bool) (now : Int)
    (g u r : Except String (List AggEvent)) (st : AggState) :
    (fetchAllEvents force now g u r st).2.1 =
      (fetchAllEvents force now g u r st).1.cachedEvents := by
  unfold fetchAllEvents
  dsimp only
  repeat first | rfl | split

/-- C3: a second `fetchAll(false)` call made while the (non-empty) result of a
previous call is cached and younger than the 5-minute time-to-live performs zero
adapter invocations, leaves the state untouched, and returns exactly the first
call's result. -/
theorem fetchAll_cache_hit (st0 : AggState) (force : Bool) (now1 now2 : Int)
    (g1 u1 s1 g2 u2 s2 : Except String (List AggEvent))
    (st1 : AggState) (evs1 : List AggEvent) (k : Nat) (t : Int)
    (h1 : fetchAllEvents force now1 g1 u1 s1 st0 = (st1, evs1, k))
    (h2 : evs1 ≠ [])
    (h3 : st1.lastFetchTime = some t)
    (h4 : t ≠ 0)
    (h5 : now2 - t < CACHE_DURATION_MS) :
    fetchAllEvents false now2 g2 u2 s2 st1 = (st1, evs1, 0) := by
  have hcache : evs1 = st1.cachedEvents := by
    have hrc := fetchAll_returns_cache force now1 g1 u1 s1 st0
    rw [h1] at hrc
    exact hrc
  have hlen : 0 < st1.cachedEvents.length := by
    rw [← hcache]
    exact List.length_pos.mpr h2
  unfold fetchAllEvents
  rw [h3]
  simp [hlen, h4, h5, ← hcache, h2]

/-- Witness for C3: a forced first refresh stores one surviving (earthquake)
event; a second non-forced call 1 second later returns it without refreshing. -/
theorem fetchAll_cache_hit_witness :
    fetchAllEvents false 2000 (Except.ok []) (Except.ok []) (Except.ok []) c3state1 =
      (c3state1, [c3processedEvent], 0) :=
  fetchAll_cache_hit c3state0 true 1000 2000
    (Except.ok []) (Except.ok [c3rawEvent]) (Except.ok [])
    (Except.ok []) (Except.ok []) (Except.ok [])
    c3state1 [c3processedEvent] 3 1000
    (by simp [fetchAllEvents, processEvents, filterEnglishOnly, filterLast24Hours,
          settleSource, MAX_AGE_MS, c3state0, c3state1, c3rawEvent, c3processedEvent])
    (by simp) rfl (by decide) (by decide)

/-! ## C6 — longest gazetteer match -/

theorem extractBestFold_nil (text : List Char) (b : Option (String × GazEntry)) :
    extractBestFold text [] b = b := rfl

theorem extractBestFold_cons (text : List Char) (kv0 : String × GazEntry)
    (l : List (String × GazEntry)) (b : Option (String × GazEntry)) :
    extractBestFold text (kv0 :: l) b =
      extractBestFold text l
        (if regexWordTest text kv0.1.data then
          (if Nat.blt (bestMatchLength b) kv0.1.length then some kv0 else b)
        else b) := rfl

/-- Specification of the best-match fold of `extractLocation` over any portion
of the index and any starting accumulator: the kept entry always passes the
regex test, its recorded length never decreases, and it is at least as long as
every matching key of the processed portion. -/
theorem extractBestFold_spec (text : List Char) (l : List (String × GazEntry))
    (b : Option (String × GazEntry))
    (hb : ∀ q, b = some q → regexWordTest text q.1.data = true) :
    (∀ q, extractBestFold text l b = some q → regexWordTest text q.1.data = true) ∧
    bestMatchLength b ≤ bestMatchLength (extractBestFold text l b) ∧
    (∀ kv ∈ l, regexWordTest text kv.1.data = true →
      kv.1.length ≤ bestMatchLength (extractBestFold text l b)) := by
  induction l generalizing b with
  | nil =>
    rw [extractBestFold_nil]
    exact ⟨hb, Nat.le_refl _, by intro kv hkv; cases hkv⟩
  | cons kv0 l ih =>
    rw [extractBestFold_cons]
    by_cases ht : regexWordTest text kv0.1.data = true
    · by_cases hblt : Nat.blt (bestMatchLength b) kv0.1.length = true
      · rw [if_pos ht, if_pos hblt]
        obtain ⟨p1, p2, p3⟩ := ih (some kv0)
          (by intro q hq; injection hq with hq'; rw [← hq']; exact ht)
        refine ⟨p1, ?_, ?_⟩
        · refine Nat.le_trans (Nat.le_of_lt ?_) p2
          exact Nat.blt_eq ▸ hblt
        · intro kv hkv htest
          rcases List.mem_cons.mp hkv with rfl | hkv'
          · exact p2
          · exact p3 kv hkv' htest
      · rw [if_pos ht, if_neg hblt]
        obtain ⟨p1, p2, p3⟩ := ih b hb
        refine ⟨p1, p2, ?_⟩
        intro kv hkv htest
        rcases List.mem_cons.mp hkv with rfl | hkv'
        · refine Nat.le_trans ?_ p2
          have hnlt : ¬ bestMatchLength b < kv.1.length := by
            intro hl
            exact hblt (Nat.blt_eq ▸ hl)
          omega
        · exact p3 kv hkv' htest
    · rw [if_neg ht]
      obtain ⟨p1, p2, p3⟩ := ih b hb
      refine ⟨p1, p2, ?_⟩
      intro kv hkv htest
      rcases List.mem_cons.mp hkv with rfl | hkv'
      · exact absurd htest ht
      · exact p3 kv hkv' htest

set_option maxRecDepth 200000 in
/-- C6: if some index key (of positive length) matches the text under the
whole-word regex test, then `extractLocation`'s scan keeps a best pair whose key
matches the text and is at least as long as *every* matching index key — in
particular at least as long as any city or country name present — and
`extractLocation` returns exactly the location built from that best entry. -/
theorem extract_longest_match (text : String) (key : String) (entry : GazEntry)
    (hmem : (key, entry) ∈ searchIndex)
    (hmatch : regexWordTest (jsLower text) key.data = true)
    (hkeylen : 0 < key.length) :
    ∃ (bk : String) (be : GazEntry),
      extractLocationAux (jsLower text) = some (bk, be) ∧
      regexWordTest (jsLower text) bk.data = true ∧
      (∀ kv ∈ searchIndex, regexWordTest (jsLower text) kv.1.data = true →
        kv.1.length ≤ bk.length) ∧
      (text ≠ "" → extractLocation text = some
        { name := be.name, lat10 := be.lat10, lng10 := be.lng10,
          type := if be.kind == "region" then "regional" else "local",
          countryCode := be.code.or be.country,
          confidence := if Nat.blt 5 bk.length then "high" else "medium" }) := by
  obtain ⟨p1, _, p3⟩ := extractBestFold_spec (jsLower text) searchIndex none
    (by intro q hq; cases hq)
  have hlen : key.length ≤ bestMatchLength (extractLocationAux (jsLower text)) :=
    p3 (key, entry) hmem hmatch
  cases hr : extractLocationAux (jsLower text) with
  | none =>
    rw [hr] at hlen
    simp [bestMatchLength] at hlen
    omega
  | some p =>
    obtain ⟨bk, be⟩ := p
    refine ⟨bk, be, rfl, ?_, ?_, ?_⟩
    · exact p1 (bk, be) hr
    · intro kv hkv htest
      have h5 : kv.1.length ≤ bestMatchLength (extractLocationAux (jsLower text)) :=
        p3 kv hkv htest
      rw [hr] at h5
      exact h5
    · intro hne
      unfold extractLocation
      rw [if_neg hne]
      dsimp only
      rw [hr]

set_option maxRecDepth 8000 in
/-- Witness for C6: in "Paris, France" both the city key "paris" (5 chars) and
the country key "france" (6 chars) match; the scan's best key is at least as
long as every matching key, so the shorter city match cannot be selected. -/
theorem extract_longest_match_witness :
    ∃ (bk : String) (be : GazEntry),
      extractLocationAux (jsLower "Paris, France") = some (bk, be) ∧
      regexWordTest (jsLower "Paris, France") bk.data = true ∧
      (∀ kv ∈ searchIndex, regexWordTest (jsLower "Paris, France") kv.1.data = true →
        kv.1.length ≤ bk.length) ∧
      ("Paris, France" ≠ "" → extractLocation "Paris, France" = some
        { name := be.name, lat10 := be.lat10, lng10 := be.lng10,
          type := if be.kind == "region" then "regional" else "local",
          countryCode := be.code.or be.country,
          confidence := if Nat.blt 5 bk.length then "high" else "medium" }) :=
  extract_longest_match "Paris, France" "france" franceEntry (by decide) (by decide)
    (by decide)
